import Mathlib

/-!
# Verification of the snow-clearing assistant core

Shallow embedding of the weather-normalization, accumulation, status and
notification logic of the repository (src/services/metno.ts,
src/context/AppContext.tsx, src/services/notifications.ts,
src/components/ContractorCard.tsx).

Conventions of the embedding:
* JavaScript numbers are modelled as exact rationals (`ℚ`); timestamps
  (millisecond epoch values, as produced by `Date` / compared via
  `new Date(s) >= d`) are modelled as integers (`ℤ`, milliseconds).
* `Math.round` (ECMA-262: nearest integer, ties toward +∞) is modelled as
  `jsRound q = ⌊q + 1/2⌋`, which coincides with that semantics on exact
  values.
* Optional JSON fields (`next_1_hours?.details?.precipitation_amount`,
  `summary?.symbol_code`) are modelled as `Option` fields.
-/

/-- Precipitation phase, from `type PrecipitationType = 'snow' | 'sleet' | 'rain'`
in src/types/index.ts. -/
inductive PrecipitationType where
  | snow
  | sleet
  | rain
deriving DecidableEq, Repr

/-- One raw entry of the Met.no time series, as consumed by
`parseWeatherData` (src/services/metno.ts): absolute time, instantaneous
details, and the optional next-1-hour / next-6-hour precipitation amounts
and symbol codes. -/
structure RawEntry where
  time : ℤ
  air_temperature : ℚ
  wind_speed : ℚ
  next1 : Option ℚ
  next6 : Option ℚ
  symbol1 : Option String
  symbol6 : Option String
deriving DecidableEq, Repr

/-- Normalized hourly record, from `interface HourlyForecast` in
src/types/index.ts. -/
structure HourlyForecast where
  time : ℤ
  snow : ℚ
  precipitationType : PrecipitationType
  temperature : ℚ
  precipitation : ℚ
  weatherCondition : String
deriving DecidableEq, Repr

/-- The "current" snapshot, from `interface CurrentWeather` in
src/types/index.ts. -/
structure CurrentWeather where
  temperature : ℚ
  snow : ℚ
  precipitationType : PrecipitationType
  precipitation : ℚ
  weatherCondition : String
  windSpeed : ℚ
deriving DecidableEq, Repr

/-- Normalizer output, from `interface WeatherData` in src/types/index.ts.
`updatedAt` is the wall-clock time at normalization
(`new Date().toISOString()`), passed in as a parameter. -/
structure WeatherData where
  updatedAt : ℤ
  current : CurrentWeather
  hourly : List HourlyForecast
deriving DecidableEq, Repr

/-- `Math.round` on an exact value: the nearest integer, ties toward +∞
(ECMA-262 `Math.round`), i.e. `⌊q + 1/2⌋`. `Rat.floor` is used so the
definition evaluates; `jsRound_eq_floor` relates it to `Int.floor`. -/
def jsRound (q : ℚ) : ℤ := (q + 1/2).floor

/-- `Math.round(value * 10) / 10`, the one-decimal rounding used throughout
src/services/metno.ts. -/
def round1 (q : ℚ) : ℚ := (jsRound (q * 10) : ℚ) / 10

/-- `getPrecipitationType` from src/services/metno.ts:
no precipitation → rain; temp < 0.5 → snow; temp < 3 → sleet; else rain. -/
def getPrecipitationType (temp precip : ℚ) : PrecipitationType :=
  if precip ≤ 0 then .rain
  else if temp < 1/2 then .snow
  else if temp < 3 then .sleet
  else .rain

/-- Derived precipitation amount of one raw entry, from the body of
`parseWeatherData`: prefer the next-1-hours amount, else the next-6-hours
amount divided by 6, else 0. -/
def precipAmount (e : RawEntry) : ℚ :=
  match e.next1 with
  | some p => p
  | none =>
    match e.next6 with
    | some p => p / 6
    | none => 0

/-- Derived snow contribution of one raw entry, from the body of
`parseWeatherData`: the precipitation amount when `temp < 2` and the
amount is positive, otherwise 0. -/
def rawSnow (e : RawEntry) : ℚ :=
  if e.air_temperature < 2 ∧ 0 < precipAmount e then precipAmount e else 0

/-- JavaScript `||` on an optional string against a string default: an
absent or empty (falsy) string falls through to the default. -/
def orFalsy (a : Option String) (b : String) : String :=
  match a with
  | some s => if s = "" then b else s
  | none => b

/-- Symbol-code selection from `parseWeatherData`:
`next_1_hours?.summary?.symbol_code || next_6_hours?.summary?.symbol_code || 'clearsky'`. -/
def weatherConditionOf (e : RawEntry) : String :=
  orFalsy e.symbol1 (orFalsy e.symbol6 "clearsky")

/-- The hourly record pushed for one raw entry inside `parseWeatherData`
(`hourly.push({...})`): time verbatim, snow / temperature / precipitation
rounded to one decimal, phase and symbol code as derived. -/
def mkHourly (e : RawEntry) : HourlyForecast :=
  { time := e.time
    snow := round1 (rawSnow e)
    precipitationType := getPrecipitationType e.air_temperature (precipAmount e)
    temperature := round1 e.air_temperature
    precipitation := round1 (precipAmount e)
    weatherCondition := weatherConditionOf e }

/-- The "current" snapshot assembled by `parseWeatherData`: from the entry
at index 0 of the (truncated) series, temperature and wind speed rounded,
snow and precipitation taken unrounded from the loop variables; when the
series is empty the loop never runs and the initial values
(0, rain, clearsky) remain. -/
def currentOf (ts : List RawEntry) : CurrentWeather :=
  match ts with
  | [] =>
    { temperature := round1 0
      snow := 0
      precipitationType := .rain
      precipitation := 0
      weatherCondition := "clearsky"
      windSpeed := round1 0 }
  | e :: _ =>
    { temperature := round1 e.air_temperature
      snow := rawSnow e
      precipitationType := getPrecipitationType e.air_temperature (precipAmount e)
      precipitation := precipAmount e
      weatherCondition := weatherConditionOf e
      windSpeed := round1 e.wind_speed }

/-- `parseWeatherData` from src/services/metno.ts: truncate to 48 entries
(`timeseries.slice(0, 48)`), normalize each hour, take the current
snapshot from index 0. `nowMs` stands for the `new Date()` sampled for
`updatedAt`. -/
def parseWeatherData (nowMs : ℤ) (timeseries : List RawEntry) : WeatherData :=
  let ts := timeseries.take 48
  { updatedAt := nowMs
    current := currentOf ts
    hourly := ts.map mkHourly }

/-- The summation loop of `calculateSnowInPeriod`: walk `fuel` entries in
order, adding the `snow` field of each entry whose time is ≥ now. -/
def sumFutureSnow (nowMs : ℤ) : List HourlyForecast → ℕ → ℚ
  | _, 0 => 0
  | [], _ + 1 => 0
  | h :: t, n + 1 =>
    (if nowMs ≤ h.time then h.snow else 0) + sumFutureSnow nowMs t n

/-- `calculateSnowInPeriod` from src/services/metno.ts: loop over
`i < Math.min(hours, hourly.length)`, sum `hourly[i].snow` for entries
with `new Date(hourly[i].time) >= now`, round the total to one decimal. -/
def calculateSnowInPeriod (nowMs : ℤ) (hourly : List HourlyForecast) (hours : ℤ) : ℚ :=
  round1 (sumFutureSnow nowMs hourly (min hours (hourly.length : ℤ)).toNat)

/-- Severity levels returned by `getSnowStatus`
(src/context/AppContext.tsx). -/
inductive SnowStatus where
  | normal
  | warning
  | critical
deriving DecidableEq, Repr

/-- `getSnowStatus` from src/context/AppContext.tsx: no weather → normal
with amount 0; otherwise classify the 24-hour accumulation against the
threshold (critical at ≥ threshold × 1.5, warning at ≥ threshold). -/
def getSnowStatus (nowMs : ℤ) (weather : Option WeatherData) (snowThreshold : ℚ) :
    SnowStatus × ℚ :=
  match weather with
  | none => (.normal, 0)
  | some w =>
    let snow24h := calculateSnowInPeriod nowMs w.hourly 24
    if snowThreshold * (3/2) ≤ snow24h then (.critical, snow24h)
    else if snowThreshold ≤ snow24h then (.warning, snow24h)
    else (.normal, snow24h)

/-- User location, from `interface Location` in src/types/index.ts. -/
structure Location where
  name : String
  lat : ℚ
  lon : ℚ
deriving DecidableEq, Repr

/-- User settings, from `interface Settings` in src/types/index.ts. -/
structure Settings where
  location : Location
  snowThreshold : ℚ
  notifyNight : Bool
  notifyDay : Bool
  notifyEnabled : Bool
  notifyOnSnow : Bool
deriving DecidableEq, Repr

/-- `isDayTime` from src/services/notifications.ts: local hour in [9, 18). -/
def isDayTime (hour : ℕ) : Bool := 9 ≤ hour && hour < 18

/-- `isNightTime` from src/services/notifications.ts: the complement of
`isDayTime`. -/
def isNightTime (hour : ℕ) : Bool := !isDayTime hour

/-- `shouldNotify` from `refreshWeather` in src/context/AppContext.tsx:
snow alerts must be enabled, and the day (resp. night) flag must be
enabled when it is currently day (resp. night). -/
def shouldNotify (s : Settings) (hour : ℕ) : Bool :=
  if !s.notifyOnSnow then false
  else if isDayTime hour && !s.notifyDay then false
  else if isNightTime hour && !s.notifyNight then false
  else true

/-- The notification section of `refreshWeather`
(src/context/AppContext.tsx), for one successful refresh: given the
settings, the current precipitation phase of the fresh snapshot, the
stored `lastNotifiedSnow`, the wall-clock time (ms) and local hour,
return whether a notification fires together with the updated
`lastNotifiedSnow`. A notification fires when `shouldNotify` holds, the
phase is snow, and `lastNotifiedSnow` is null or strictly before one hour
ago; firing stores the current time; a non-snow phase clears the stored
time. -/
def refreshNotification (s : Settings) (phase : PrecipitationType)
    (lastNotifiedSnow : Option ℤ) (nowMs : ℤ) (hour : ℕ) : Bool × Option ℤ :=
  let oneHourAgo := nowMs - 3600000
  let fired := shouldNotify s hour && phase == .snow &&
    (match lastNotifiedSnow with
     | none => true
     | some t => decide (t < oneHourAgo))
  let last1 := if fired then some nowMs else lastNotifiedSnow
  let last2 := if phase ≠ .snow then none else last1
  (fired, last2)

/-- History record, from `interface SnowEntry` in src/types/index.ts;
the ISO-8601 `timestamp` string is modelled by its epoch value in
milliseconds. -/
structure SnowEntry where
  id : String
  timestamp : ℤ
  snowDepth : Option ℚ
  comment : Option String
  contractor : Option String
deriving DecidableEq, Repr

/-- `cleanOldHistory` from src/context/AppContext.tsx: keep exactly the
entries whose timestamp is ≥ the six-months-ago cutoff. The cutoff
(`new Date()` with `setMonth(getMonth() - 6)`) is calendar arithmetic on
the wall clock; it is passed in as the epoch value `sixMonthsAgoMs`. -/
def cleanOldHistory (sixMonthsAgoMs : ℤ) (entries : List SnowEntry) : List SnowEntry :=
  entries.filter (fun e => sixMonthsAgoMs ≤ e.timestamp)

/-- The `ADD_HISTORY` case of `appReducer` (src/context/AppContext.tsx):
append the new entry, then prune with `cleanOldHistory`. -/
def addHistory (sixMonthsAgoMs : ℤ) (history : List SnowEntry) (payload : SnowEntry) :
    List SnowEntry :=
  cleanOldHistory sixMonthsAgoMs (history ++ [payload])

/-- The load path of the history (initial `useEffect` in `AppProvider`):
the saved list is pruned with `cleanOldHistory` before `SET_HISTORY`. -/
def loadHistory (sixMonthsAgoMs : ℤ) (saved : List SnowEntry) : List SnowEntry :=
  cleanOldHistory sixMonthsAgoMs saved

/-- Contact record, from `interface Contractor` in src/types/index.ts;
the optional `isPrimary` flag (absent = falsy) is modelled as `Bool`. -/
structure Contractor where
  id : String
  name : String
  phone : String
  email : Option String
  isPrimary : Bool
deriving DecidableEq, Repr

/-- The `SET_CONTRACTOR_PRIMARY` case of `appReducer`
(src/context/AppContext.tsx): mark exactly the contractor with the given
id as primary. -/
def setContractorPrimary (contractors : List Contractor) (pid : String) :
    List Contractor :=
  contractors.map (fun c => { c with isPrimary := c.id == pid })

/-- The `DELETE_CONTRACTOR` case of `appReducer`
(src/context/AppContext.tsx): remove the contractor with the given id. -/
def deleteContractor (contractors : List Contractor) (cid : String) :
    List Contractor :=
  contractors.filter (fun c => !(c.id == cid))

/-- `confirmDelete` from src/components/ContractorCard.tsx: an empty
(falsy) `deletingId` returns early; when the deleted contractor is
primary and others exist, `remaining[0]` is promoted via
`SET_CONTRACTOR_PRIMARY` before `DELETE_CONTRACTOR` runs. Accessing
`remaining[0]` on an empty `remaining` would throw in JavaScript, which
is modelled as `none`. -/
def confirmDelete (contractors : List Contractor) (deletingId : String) :
    Option (List Contractor) :=
  if deletingId = "" then some contractors
  else
    match contractors.find? (fun c => c.id == deletingId) with
    | none => some (deleteContractor contractors deletingId)
    | some c =>
      if c.isPrimary && decide (1 < contractors.length) then
        match contractors.filter (fun x => !(x.id == deletingId)) with
        | [] => none
        | r0 :: _ =>
          some (deleteContractor (setContractorPrimary contractors r0.id) deletingId)
      else some (deleteContractor contractors deletingId)

/-- `Rat.floor` agrees with the floor of the floor ring `ℚ`. -/
lemma ratFloor_eq_intFloor (q : ℚ) : q.floor = ⌊q⌋ := by
  rw [Rat.floor_def]
  exact Rat.floor_def' q

/-- `jsRound` is `⌊q + 1/2⌋`. -/
lemma jsRound_eq_floor (q : ℚ) : jsRound q = ⌊q + 1/2⌋ :=
  ratFloor_eq_intFloor (q + 1/2)

/-- Evaluation rule for `Rat.floor` through the two-sided bound. -/
lemma ratFloor_eq (q : ℚ) (z : ℤ) (h1 : (z : ℚ) ≤ q) (h2 : q < z + 1) :
    q.floor = z := by
  rw [ratFloor_eq_intFloor]
  exact Int.floor_eq_iff.mpr ⟨h1, h2⟩

/-- Evaluation rule for `round1` through the two-sided bound on `q*10 + 1/2`. -/
lemma round1_eq (q : ℚ) (z : ℤ) (h1 : (z : ℚ) ≤ q * 10 + 1/2)
    (h2 : q * 10 + 1/2 < z + 1) : round1 q = (z : ℚ) / 10 := by
  unfold round1 jsRound
  rw [ratFloor_eq (q * 10 + 1/2) z h1 h2]

/-- Rounding a zero quantity to one decimal yields zero. -/
lemma round1_zero : round1 0 = 0 := by
  rw [round1_eq 0 0 (by norm_num) (by norm_num)]
  norm_num

/-- `round1` at the negative half-way value -2.45 rounds toward zero. -/
lemma round1_neg245 : round1 (-49/20) = -12/5 := by
  rw [round1_eq (-49/20) (-24) (by norm_num) (by norm_num)]
  norm_num

/-- The rounding the specification describes: round-half-away-from-zero.
Defined from the spec words, to be compared with the source's `jsRound`. -/
def roundHalfAwayFromZero (x : ℚ) : ℤ :=
  if 0 ≤ x then (x + 1/2).floor else -(-x + 1/2).floor

/-- One-decimal rounding as the specification words it:
round-half-away-from-zero on value×10, divided by 10. -/
def specRound1 (q : ℚ) : ℚ := (roundHalfAwayFromZero (q * 10) : ℚ) / 10

/-- C2: for every raw entry, the normalized record's snow field equals its
precipitation field when the raw temperature is strictly below 2 °C and
the derived precipitation amount is strictly positive, and 0 otherwise;
and its phase is rain when the derived amount is ≤ 0, else snow below
0.5 °C, else sleet below 3 °C, else rain. -/
theorem C2_hourly_snow_and_phase (e : RawEntry) :
    ((mkHourly e).snow =
      if e.air_temperature < 2 ∧ 0 < precipAmount e then (mkHourly e).precipitation
      else 0) ∧
    ((mkHourly e).precipitationType =
      if precipAmount e ≤ 0 then PrecipitationType.rain
      else if e.air_temperature < 1/2 then PrecipitationType.snow
      else if e.air_temperature < 3 then PrecipitationType.sleet
      else PrecipitationType.rain) := by
  constructor
  · show round1 (rawSnow e) = _
    unfold rawSnow
    by_cases h : e.air_temperature < 2 ∧ 0 < precipAmount e
    · rw [if_pos h, if_pos h]; rfl
    · rw [if_neg h, if_neg h, round1_zero]
  · rfl

/-- A raw entry carrying a 1-hour precipitation figure. -/
def sampleEntry1h : RawEntry :=
  { time := 0, air_temperature := 1, wind_speed := 0,
    next1 := some (3/10), next6 := some 6, symbol1 := none, symbol6 := none }

/-- A raw entry carrying only a 6-hour precipitation figure. -/
def sampleEntry6h : RawEntry :=
  { time := 0, air_temperature := 1, wind_speed := 0,
    next1 := none, next6 := some 3, symbol1 := none, symbol6 := none }

/-- A raw entry carrying no precipitation figure. -/
def sampleEntryNoPrecip : RawEntry :=
  { time := 0, air_temperature := 1, wind_speed := 0,
    next1 := none, next6 := none, symbol1 := none, symbol6 := none }

/-- C7: the derived precipitation amount prefers the 1-hour figure
verbatim, falls back to the 6-hour figure divided by 6, and defaults to
0; the normalized record stores this amount rounded to one decimal. -/
theorem C7_precipitation_preference (e : RawEntry) :
    (∀ p, e.next1 = some p → precipAmount e = p) ∧
    (e.next1 = none → ∀ p, e.next6 = some p → precipAmount e = p / 6) ∧
    (e.next1 = none → e.next6 = none → precipAmount e = 0) ∧
    (mkHourly e).precipitation = round1 (precipAmount e) := by
  refine ⟨?_, ?_, ?_, rfl⟩
  · intro p hp; simp [precipAmount, hp]
  · intro h1 p h6; simp [precipAmount, h1, h6]
  · intro h1 h6; simp [precipAmount, h1, h6]

/-- Witness for C7 at the three concrete entries. -/
theorem C7_precipitation_preference_witness :
    precipAmount sampleEntry1h = 3/10 ∧
    precipAmount sampleEntry6h = 3/6 ∧
    precipAmount sampleEntryNoPrecip = 0 :=
  ⟨(C7_precipitation_preference sampleEntry1h).1 (3/10) rfl,
   (C7_precipitation_preference sampleEntry6h).2.1 rfl 3 rfl,
   (C7_precipitation_preference sampleEntryNoPrecip).2.2.1 rfl rfl⟩

/-- C10: the fire/no-fire decision and the updated debounce timestamp of
the notification step are unchanged when only `notifyEnabled` differs:
the master switch is never read by the gate. -/
theorem C10_notifyEnabled_no_effect (s : Settings) (b : Bool)
    (phase : PrecipitationType) (last : Option ℤ) (nowMs : ℤ) (hour : ℕ) :
    refreshNotification { s with notifyEnabled := b } phase last nowMs hour =
      refreshNotification s phase last nowMs hour := rfl

/-- First raw entry whose derived amounts have more than one decimal:
only a 6-hour figure of 1 mm is present, so the derived hourly amount is
1/6 mm. -/
def sampleEntrySixth : RawEntry :=
  { time := 0, air_temperature := 1, wind_speed := 0,
    next1 := none, next6 := some 1, symbol1 := none, symbol6 := some "snow" }

/-- C1 fails on the code: the current snapshot stores the unrounded loop
values for snow and precipitation (1/6 mm here), while the hour-0 record
stores them rounded to one decimal (0.2 mm). -/
theorem C1_counterexample :
    (parseWeatherData 0 [sampleEntrySixth]).hourly.head? = some (mkHourly sampleEntrySixth) ∧
    (parseWeatherData 0 [sampleEntrySixth]).current.snow = 1/6 ∧
    (mkHourly sampleEntrySixth).snow = 1/5 ∧
    (parseWeatherData 0 [sampleEntrySixth]).current.snow ≠ (mkHourly sampleEntrySixth).snow ∧
    (parseWeatherData 0 [sampleEntrySixth]).current.precipitation ≠
      (mkHourly sampleEntrySixth).precipitation := by
  have hprec : precipAmount sampleEntrySixth = 1/6 := by
    norm_num [precipAmount, sampleEntrySixth]
  have hraw : rawSnow sampleEntrySixth = 1/6 := by
    rw [rawSnow, hprec]
    norm_num [sampleEntrySixth]
  have hr : round1 (1/6) = 1/5 := by
    rw [round1_eq (1/6) 2 (by norm_num) (by norm_num)]
    norm_num
  refine ⟨rfl, hraw, ?_, ?_, ?_⟩
  · show round1 (rawSnow sampleEntrySixth) = 1/5
    rw [hraw]
    exact hr
  · show rawSnow sampleEntrySixth ≠ round1 (rawSnow sampleEntrySixth)
    rw [hraw, hr]
    norm_num
  · show precipAmount sampleEntrySixth ≠ round1 (precipAmount sampleEntrySixth)
    rw [hprec, hr]
    norm_num

/-- C1 as amended: on every nonempty accepted series the current snapshot
agrees with the hour-0 record on temperature, phase and weather code, and
the hour-0 snow and precipitation are the one-decimal roundings of the
(unrounded) current snow and precipitation. -/
theorem C1_current_matches_hour0 (nowMs : ℤ) (e : RawEntry) (rest : List RawEntry) :
    (parseWeatherData nowMs (e :: rest)).hourly.head? = some (mkHourly e) ∧
    (parseWeatherData nowMs (e :: rest)).current.temperature = (mkHourly e).temperature ∧
    (parseWeatherData nowMs (e :: rest)).current.precipitationType =
      (mkHourly e).precipitationType ∧
    (parseWeatherData nowMs (e :: rest)).current.weatherCondition =
      (mkHourly e).weatherCondition ∧
    (mkHourly e).snow = round1 ((parseWeatherData nowMs (e :: rest)).current.snow) ∧
    (mkHourly e).precipitation =
      round1 ((parseWeatherData nowMs (e :: rest)).current.precipitation) :=
  ⟨rfl, rfl, rfl, rfl, rfl, rfl⟩

/-- Evaluation rule for `specRound1` at a negative value. -/
lemma specRound1_eq_neg (q : ℚ) (z : ℤ) (hq : ¬ (0:ℚ) ≤ q * 10)
    (h1 : (z : ℚ) ≤ -(q * 10) + 1/2) (h2 : -(q * 10) + 1/2 < z + 1) :
    specRound1 q = ((-z : ℤ) : ℚ) / 10 := by
  unfold specRound1 roundHalfAwayFromZero
  rw [if_neg hq, ratFloor_eq (-(q * 10) + 1/2) z h1 h2]

/-- `specRound1` at -2.45 rounds away from zero, to -2.5. -/
lemma specRound1_neg245 : specRound1 (-49/20) = -5/2 := by
  rw [specRound1_eq_neg (-49/20) 25 (by norm_num) (by norm_num) (by norm_num)]
  push_cast
  norm_num

/-- C5 fails on the code at the input -2.45. -/
theorem C5_counterexample :
    round1 (-49/20) = -12/5 ∧
    specRound1 (-49/20) = -5/2 ∧
    round1 (-49/20) ≠ specRound1 (-49/20) := by
  refine ⟨round1_neg245, specRound1_neg245, ?_⟩
  rw [round1_neg245, specRound1_neg245]
  norm_num

/-- A raw entry used to witness the rounding statements concretely. -/
def sampleEntryRound : RawEntry :=
  { time := 0, air_temperature := -49/20, wind_speed := 0,
    next1 := some (1/3), next6 := none, symbol1 := none, symbol6 := none }

/-- C5 as amended: the normalizer's derived numeric fields are the input
rounded to one decimal by `⌊value*10 + 1/2⌋ / 10` (ties toward +∞); this
coincides with round-half-away-from-zero for every nonnegative value, but
a negative half-way value such as -2.45 rounds toward zero, to -2.4. -/
theorem C5_rounding_semantics (e : RawEntry) (q : ℚ) (hq : 0 ≤ q) :
    (mkHourly e).snow = round1 (rawSnow e) ∧
    (mkHourly e).temperature = round1 e.air_temperature ∧
    (mkHourly e).precipitation = round1 (precipAmount e) ∧
    round1 q = specRound1 q ∧
    round1 (-49/20) = -12/5 := by
  refine ⟨rfl, rfl, rfl, ?_, round1_neg245⟩
  unfold round1 specRound1 roundHalfAwayFromZero jsRound
  rw [if_pos (by positivity : (0:ℚ) ≤ q * 10)]

/-- Witness for C5 at a concrete entry and value. -/
theorem C5_rounding_semantics_witness :
    (mkHourly sampleEntryRound).snow = round1 (rawSnow sampleEntryRound) ∧
    (mkHourly sampleEntryRound).temperature = round1 sampleEntryRound.air_temperature ∧
    (mkHourly sampleEntryRound).precipitation = round1 (precipAmount sampleEntryRound) ∧
    round1 (1/3) = specRound1 (1/3) ∧
    round1 (-49/20) = -12/5 :=
  C5_rounding_semantics sampleEntryRound (1/3) (by norm_num)

/-- The summation loop equals the sum of the snow of the future entries
among the first `n`. -/
lemma sumFutureSnow_eq_sum (nowMs : ℤ) :
    ∀ (l : List HourlyForecast) (n : ℕ),
      sumFutureSnow nowMs l n =
        (((l.take n).filter (fun h => decide (nowMs ≤ h.time))).map
          HourlyForecast.snow).sum := by
  intro l
  induction l with
  | nil => intro n; cases n <;> simp [sumFutureSnow]
  | cons h t ih =>
    intro n
    cases n with
    | zero => simp [sumFutureSnow]
    | succ m =>
      by_cases hle : nowMs ≤ h.time
      · simp [sumFutureSnow, hle, ih m, List.filter_cons]
      · simp [sumFutureSnow, hle, ih m, List.filter_cons]

/-- The summation loop of an empty sequence is 0 at any fuel. -/
lemma sumFutureSnow_nil (nowMs : ℤ) (n : ℕ) : sumFutureSnow nowMs [] n = 0 := by
  cases n <;> rfl

/-- The summation loop with no fuel is 0 on any sequence. -/
lemma sumFutureSnow_zero (nowMs : ℤ) (l : List HourlyForecast) :
    sumFutureSnow nowMs l 0 = 0 := by
  cases l <;> rfl

/-- C3: the accumulation calculator returns the rounded sum of the snow of
exactly the future records among the first min(window, length) records,
and is 0 on an empty sequence, 0 for a nonpositive window, 0 when every
entry is in the past; a window beyond the length acts like window =
length. -/
theorem C3_accumulation (nowMs : ℤ) (hourly : List HourlyForecast) (hours : ℤ) :
    calculateSnowInPeriod nowMs hourly hours =
      round1 ((((hourly.take (min hours (hourly.length : ℤ)).toNat).filter
        (fun h => decide (nowMs ≤ h.time))).map HourlyForecast.snow).sum) ∧
    calculateSnowInPeriod nowMs ([] : List HourlyForecast) hours = 0 ∧
    (hours ≤ 0 → calculateSnowInPeriod nowMs hourly hours = 0) ∧
    ((∀ h ∈ hourly, h.time < nowMs) → calculateSnowInPeriod nowMs hourly hours = 0) ∧
    ((hourly.length : ℤ) ≤ hours →
      calculateSnowInPeriod nowMs hourly hours =
        calculateSnowInPeriod nowMs hourly (hourly.length : ℤ)) := by
  refine ⟨?_, ?_, ?_, ?_, ?_⟩
  · unfold calculateSnowInPeriod
    rw [sumFutureSnow_eq_sum]
  · unfold calculateSnowInPeriod
    rw [sumFutureSnow_nil, round1_zero]
  · intro h0
    unfold calculateSnowInPeriod
    have : (min hours (hourly.length : ℤ)).toNat = 0 := by
      have : min hours (hourly.length : ℤ) ≤ 0 := le_trans (min_le_left _ _) h0
      omega
    rw [this, sumFutureSnow_zero, round1_zero]
  · intro hpast
    unfold calculateSnowInPeriod
    rw [sumFutureSnow_eq_sum]
    have hfil :
        (hourly.take (min hours (hourly.length : ℤ)).toNat).filter
          (fun h => decide (nowMs ≤ h.time)) = [] := by
      rw [List.filter_eq_nil_iff]
      intro a ha
      have : a ∈ hourly := List.take_subset _ _ ha
      simpa using not_le.mpr (hpast a this)
    rw [hfil]
    simpa using round1_zero
  · intro hlen
    unfold calculateSnowInPeriod
    rw [min_eq_right hlen, min_self]

/-- A concrete normalized hour used in the witnesses. -/
def hourAt (t : ℤ) (s : ℚ) : HourlyForecast :=
  { time := t, snow := s, precipitationType := .snow,
    temperature := -1, precipitation := s, weatherCondition := "snow" }

/-- Witness for C3 at concrete sequences, windows and times. -/
theorem C3_accumulation_witness :
    calculateSnowInPeriod 0 [hourAt 5 1, hourAt 6 2] (-1) = 0 ∧
    calculateSnowInPeriod 10 [hourAt 5 1, hourAt 6 2] 5 = 0 ∧
    calculateSnowInPeriod 0 [hourAt 5 1, hourAt 6 2] 100 =
      calculateSnowInPeriod 0 [hourAt 5 1, hourAt 6 2]
        (([hourAt 5 1, hourAt 6 2] : List HourlyForecast).length : ℤ) :=
  ⟨(C3_accumulation 0 [hourAt 5 1, hourAt 6 2] (-1)).2.2.1 (by norm_num),
   (C3_accumulation 10 [hourAt 5 1, hourAt 6 2] 5).2.2.2.1 (by
      intro h hh
      simp only [List.mem_cons, List.mem_singleton] at hh
      rcases hh with rfl | rfl | hh
      · norm_num [hourAt]
      · norm_num [hourAt]
      · cases hh),
   (C3_accumulation 0 [hourAt 5 1, hourAt 6 2] 100).2.2.2.2 (by norm_num)⟩

/-- Unfolding rule for `getSnowStatus` with weather present. -/
lemma getSnowStatus_some (nowMs : ℤ) (w : WeatherData) (th : ℚ) :
    getSnowStatus nowMs (some w) th =
      (if th * (3/2) ≤ calculateSnowInPeriod nowMs w.hourly 24 then
        (SnowStatus.critical, calculateSnowInPeriod nowMs w.hourly 24)
      else if th ≤ calculateSnowInPeriod nowMs w.hourly 24 then
        (SnowStatus.warning, calculateSnowInPeriod nowMs w.hourly 24)
      else (SnowStatus.normal, calculateSnowInPeriod nowMs w.hourly 24)) := rfl

/-- A weather snapshot whose single future hour carries `s` mm of snow. -/
def statusWeather (s : ℚ) : WeatherData :=
  { updatedAt := 0
    current := { temperature := 0, snow := 0, precipitationType := .rain,
                 precipitation := 0, weatherCondition := "clearsky", windSpeed := 0 }
    hourly := [hourAt 1 s] }

/-- The 24-hour accumulation of `statusWeather s` read at time 0. -/
lemma calcSnow_statusWeather (s : ℚ) :
    calculateSnowInPeriod 0 (statusWeather s).hourly 24 = round1 s := by
  show calculateSnowInPeriod 0 [hourAt 1 s] 24 = round1 s
  unfold calculateSnowInPeriod
  have h1 : (min (24:ℤ) (([hourAt 1 s] : List HourlyForecast).length : ℤ)).toNat = 1 := by
    simp
  rw [h1]
  have h2 : sumFutureSnow 0 [hourAt 1 s] 1 = s := by
    simp [sumFutureSnow, hourAt, sumFutureSnow_zero]
  rw [h2]

/-- C4: with weather present, the classifier returns critical exactly when
the 24-hour accumulation is ≥ threshold × 1.5, else warning when it is
≥ threshold, else normal (both comparisons inclusive), and at threshold
10 the accumulations 15.0 / 14.9 / 9.9 classify as critical / warning /
normal. -/
theorem C4_status_classifier (nowMs : ℤ) (w : WeatherData) (threshold : ℚ)
    (hpos : 0 < threshold) :
    (threshold * (3/2) ≤ calculateSnowInPeriod nowMs w.hourly 24 →
      getSnowStatus nowMs (some w) threshold =
        (SnowStatus.critical, calculateSnowInPeriod nowMs w.hourly 24)) ∧
    (calculateSnowInPeriod nowMs w.hourly 24 < threshold * (3/2) →
      threshold ≤ calculateSnowInPeriod nowMs w.hourly 24 →
      getSnowStatus nowMs (some w) threshold =
        (SnowStatus.warning, calculateSnowInPeriod nowMs w.hourly 24)) ∧
    (calculateSnowInPeriod nowMs w.hourly 24 < threshold →
      getSnowStatus nowMs (some w) threshold =
        (SnowStatus.normal, calculateSnowInPeriod nowMs w.hourly 24)) ∧
    (getSnowStatus 0 (some (statusWeather 15)) 10).1 = SnowStatus.critical ∧
    (getSnowStatus 0 (some (statusWeather (149/10))) 10).1 = SnowStatus.warning ∧
    (getSnowStatus 0 (some (statusWeather (99/10))) 10).1 = SnowStatus.normal := by
  have hc15 : calculateSnowInPeriod 0 (statusWeather 15).hourly 24 = 15 := by
    rw [calcSnow_statusWeather, round1_eq 15 150 (by norm_num) (by norm_num)]
    norm_num
  have hc149 : calculateSnowInPeriod 0 (statusWeather (149/10)).hourly 24 = 149/10 := by
    rw [calcSnow_statusWeather, round1_eq (149/10) 149 (by norm_num) (by norm_num)]
    norm_num
  have hc99 : calculateSnowInPeriod 0 (statusWeather (99/10)).hourly 24 = 99/10 := by
    rw [calcSnow_statusWeather, round1_eq (99/10) 99 (by norm_num) (by norm_num)]
    norm_num
  refine ⟨?_, ?_, ?_, ?_, ?_, ?_⟩
  · intro h
    rw [getSnowStatus_some, if_pos h]
  · intro h1 h2
    rw [getSnowStatus_some, if_neg (not_le.mpr h1), if_pos h2]
  · intro h
    have hlt : calculateSnowInPeriod nowMs w.hourly 24 < threshold * (3/2) :=
      lt_of_lt_of_le h (by linarith)
    rw [getSnowStatus_some, if_neg (not_le.mpr hlt), if_neg (not_le.mpr h)]
  · rw [getSnowStatus_some, hc15, if_pos (by norm_num)]
  · rw [getSnowStatus_some, hc149, if_neg (by norm_num), if_pos (by norm_num)]
  · rw [getSnowStatus_some, hc99, if_neg (by norm_num), if_neg (by norm_num)]

/-- Witness for C4 at threshold 10 and the three example accumulations. -/
theorem C4_status_classifier_witness :
    (getSnowStatus 0 (some (statusWeather 15)) 10).1 = SnowStatus.critical ∧
    (getSnowStatus 0 (some (statusWeather (149/10))) 10).1 = SnowStatus.warning ∧
    (getSnowStatus 0 (some (statusWeather (99/10))) 10).1 = SnowStatus.normal :=
  (C4_status_classifier 0 (statusWeather 15) 10 (by norm_num)).2.2.2

/-- Membership characterization of `cleanOldHistory`. -/
lemma mem_cleanOldHistory (cutoff : ℤ) (l : List SnowEntry) (e : SnowEntry) :
    e ∈ cleanOldHistory cutoff l ↔ e ∈ l ∧ cutoff ≤ e.timestamp := by
  unfold cleanOldHistory
  rw [List.mem_filter]
  simp

/-- C9: pruning (applied on load and on insertion) keeps exactly the
entries with timestamp ≥ the six-months-ago cutoff; an entry 1 second
(1000 ms) after the cutoff is retained on insertion, an entry 1 second
before the cutoff is removed. -/
theorem C9_history_pruning (cutoff : ℤ) (history : List SnowEntry) (entry : SnowEntry) :
    (∀ e : SnowEntry, e ∈ cleanOldHistory cutoff history ↔
      e ∈ history ∧ cutoff ≤ e.timestamp) ∧
    (∀ e : SnowEntry, e ∈ loadHistory cutoff history ↔
      e ∈ history ∧ cutoff ≤ e.timestamp) ∧
    (∀ e : SnowEntry, e ∈ addHistory cutoff history entry ↔
      (e ∈ history ∨ e = entry) ∧ cutoff ≤ e.timestamp) ∧
    (entry.timestamp = cutoff + 1000 → entry ∈ addHistory cutoff history entry) ∧
    (entry.timestamp = cutoff - 1000 → entry ∉ addHistory cutoff history entry) := by
  refine ⟨mem_cleanOldHistory cutoff history, mem_cleanOldHistory cutoff history,
    ?_, ?_, ?_⟩
  · intro e
    unfold addHistory
    rw [mem_cleanOldHistory]
    simp
  · intro ht
    unfold addHistory
    rw [mem_cleanOldHistory]
    exact ⟨by simp, by omega⟩
  · intro ht hmem
    unfold addHistory at hmem
    rw [mem_cleanOldHistory] at hmem
    omega

/-- A history entry dated 1 second after the cutoff 0. -/
def sampleEntryFresh : SnowEntry :=
  { id := "fresh", timestamp := 1000, snowDepth := none,
    comment := none, contractor := none }

/-- A history entry dated 1 second before the cutoff 0. -/
def sampleEntryStale : SnowEntry :=
  { id := "stale", timestamp := -1000, snowDepth := none,
    comment := none, contractor := none }

/-- Witness for C9 at cutoff 0 and the two boundary entries. -/
theorem C9_history_pruning_witness :
    sampleEntryFresh ∈ addHistory 0 [] sampleEntryFresh ∧
    sampleEntryStale ∉ addHistory 0 [] sampleEntryStale :=
  ⟨(C9_history_pruning 0 [] sampleEntryFresh).2.2.2.1 (by norm_num [sampleEntryFresh]),
   (C9_history_pruning 0 [] sampleEntryStale).2.2.2.2 (by norm_num [sampleEntryStale])⟩

/-- The notification step on a snow phase with a clear debounce slot. -/
lemma refreshNotification_snow_none (s : Settings) (nowMs : ℤ) (hour : ℕ)
    (hperm : shouldNotify s hour = true) :
    refreshNotification s .snow none nowMs hour = (true, some nowMs) := by
  simp [refreshNotification, hperm]

/-- The notification step on a snow phase with a stored debounce time. -/
lemma refreshNotification_snow_some (s : Settings) (t nowMs : ℤ) (hour : ℕ)
    (hperm : shouldNotify s hour = true) :
    refreshNotification s .snow (some t) nowMs hour =
      if t < nowMs - 3600000 then (true, some nowMs) else (false, some t) := by
  by_cases h : t < nowMs - 3600000
  · simp [refreshNotification, hperm, h]
  · simp [refreshNotification, hperm, h]

/-- C6: across two consecutive refreshes that both see the snow phase with
the policy permitting, the gate fires exactly when the stored time is
null or more than one hour old, firing stores the current time, at most
one of the two refreshes fires when they are at most 59 minutes apart,
and a gap of more than 60 minutes lets the second fire again. -/
theorem C6_notification_debounce (s : Settings) (last0 : Option ℤ)
    (t1 t2 : ℤ) (hr1 hr2 : ℕ)
    (hperm1 : shouldNotify s hr1 = true) (hperm2 : shouldNotify s hr2 = true) :
    ((refreshNotification s .snow last0 t1 hr1).1 = true ↔
      (last0 = none ∨ ∃ t0, last0 = some t0 ∧ t0 < t1 - 3600000)) ∧
    ((refreshNotification s .snow last0 t1 hr1).1 = true →
      (refreshNotification s .snow last0 t1 hr1).2 = some t1) ∧
    (t2 - t1 ≤ 59 * 60000 →
      ¬((refreshNotification s .snow last0 t1 hr1).1 = true ∧
        (refreshNotification s .snow (refreshNotification s .snow last0 t1 hr1).2
          t2 hr2).1 = true)) ∧
    (60 * 60000 < t2 - t1 →
      (refreshNotification s .snow last0 t1 hr1).1 = true →
      (refreshNotification s .snow (refreshNotification s .snow last0 t1 hr1).2
        t2 hr2).1 = true) := by
  have hset : (refreshNotification s .snow last0 t1 hr1).1 = true →
      (refreshNotification s .snow last0 t1 hr1).2 = some t1 := by
    cases last0 with
    | none =>
      rw [refreshNotification_snow_none s t1 hr1 hperm1]
      intro _
      rfl
    | some t0 =>
      rw [refreshNotification_snow_some s t0 t1 hr1 hperm1]
      by_cases h : t0 < t1 - 3600000
      · rw [if_pos h]
        intro _
        rfl
      · rw [if_neg h]
        intro hf
        exact absurd hf (by simp)
  refine ⟨?_, hset, ?_, ?_⟩
  · cases last0 with
    | none =>
      rw [refreshNotification_snow_none s t1 hr1 hperm1]
      simp
    | some t0 =>
      rw [refreshNotification_snow_some s t0 t1 hr1 hperm1]
      by_cases h : t0 < t1 - 3600000
      · rw [if_pos h]
        simp [h]
      · rw [if_neg h]
        simp [h]
  · rintro hgap ⟨hf1, hf2⟩
    rw [hset hf1, refreshNotification_snow_some s t1 t2 hr2 hperm2] at hf2
    by_cases h : t1 < t2 - 3600000
    · omega
    · rw [if_neg h] at hf2
      exact absurd hf2 (by simp)
  · intro hgap hf1
    rw [hset hf1, refreshNotification_snow_some s t1 t2 hr2 hperm2,
      if_pos (by omega : t1 < t2 - 3600000)]

/-- Settings with snow alerts and both day and night notification on. -/
def sampleNotifySettings : Settings :=
  { location := { name := "Oslo", lat := 60, lon := 11 }
    snowThreshold := 10, notifyNight := true, notifyDay := true,
    notifyEnabled := true, notifyOnSnow := true }

/-- Witness for C6: two snow refreshes 59 minutes apart starting from a
clear debounce slot fire at most once. -/
theorem C6_notification_debounce_witness :
    ¬((refreshNotification sampleNotifySettings .snow none 0 12).1 = true ∧
      (refreshNotification sampleNotifySettings .snow
        (refreshNotification sampleNotifySettings .snow none 0 12).2
        3540000 12).1 = true) :=
  (C6_notification_debounce sampleNotifySettings none 0 3540000 12 12 rfl rfl).2.2.1
    (by norm_num)

/-- In a list whose ids are pairwise distinct, exactly one element carries
the id of any member. -/
lemma countP_id_eq_one :
    ∀ (l : List Contractor) (a : Contractor),
      (l.map Contractor.id).Nodup → a ∈ l →
      l.countP (fun x => x.id == a.id) = 1 := by
  intro l
  induction l with
  | nil => intro a _ ha; cases ha
  | cons b t ih =>
    intro a hnd ha
    rw [List.map_cons, List.nodup_cons] at hnd
    rw [List.countP_cons]
    rcases List.mem_cons.mp ha with rfl | hat
    · have ht : t.countP (fun x => x.id == a.id) = 0 := by
        rw [List.countP_eq_zero]
        intro x hx
        simp only [beq_iff_eq]
        intro hxe
        exact hnd.1 (by rw [← hxe]; exact List.mem_map_of_mem _ hx)
      rw [ht]
      simp
    · have hba : (b.id == a.id) = false := by
        simp only [beq_eq_false_iff_ne, ne_eq]
        intro h
        exact hnd.1 (by rw [h]; exact List.mem_map_of_mem _ hat)
      rw [hba]
      simp [ih a hnd.2 hat]

/-- In a list whose ids are pairwise distinct, `find?` on a member's id
returns that member. -/
lemma find?_id_of_nodup :
    ∀ (l : List Contractor) (c : Contractor),
      (l.map Contractor.id).Nodup → c ∈ l →
      l.find? (fun x => x.id == c.id) = some c := by
  intro l
  induction l with
  | nil => intro c _ hc; cases hc
  | cons b t ih =>
    intro c hnd hc
    rw [List.map_cons, List.nodup_cons] at hnd
    rcases List.mem_cons.mp hc with rfl | hct
    · exact List.find?_cons_of_pos _ (by simp)
    · have hbc : (b.id == c.id) = false := by
        simp only [beq_eq_false_iff_ne, ne_eq]
        intro h
        exact hnd.1 (by rw [h]; exact List.mem_map_of_mem _ hct)
      rw [show List.find? (fun x => x.id == c.id) (b :: t) =
            List.find? (fun x => x.id == c.id) t from
          List.find?_cons_of_neg t (by simp [hbc])]
      exact ih c hnd.2 hct

/-- Re-marking the primary flag commutes with deleting by id, since the
flag update does not touch ids. -/
lemma map_primary_filter_comm (l : List Contractor) (pid cid : String) :
    (l.map (fun c0 => { c0 with isPrimary := c0.id == pid })).filter
        (fun x => !(x.id == cid)) =
      (l.filter (fun x => !(x.id == cid))).map
        (fun c0 => { c0 with isPrimary := c0.id == pid }) := by
  induction l with
  | nil => rfl
  | cons a t ih =>
    rw [List.map_cons]
    by_cases h : a.id = cid
    · rw [List.filter_cons_of_neg (by simp [h]), List.filter_cons_of_neg (by simp [h]), ih]
    · rw [List.filter_cons_of_pos (by simp [h]), List.filter_cons_of_pos (by simp [h]),
        List.map_cons, ih]

/-- Unfolding rule for `confirmDelete` when the search resolves. -/
lemma confirmDelete_eq_of_find (cs : List Contractor) (did : String) (c : Contractor)
    (hid : did ≠ "") (hfind : cs.find? (fun x => x.id == did) = some c) :
    confirmDelete cs did =
      if c.isPrimary && decide (1 < cs.length) then
        match cs.filter (fun x => !(x.id == did)) with
        | [] => none
        | r0 :: _ => some (deleteContractor (setContractorPrimary cs r0.id) did)
      else some (deleteContractor cs did) := by
  unfold confirmDelete
  rw [if_neg hid, hfind]

/-- C8: deleting the contractor marked primary (by its id, in a set with
pairwise distinct ids) never throws, and afterwards exactly one
contractor is primary when any remain, and none is primary when the set
became empty. -/
theorem C8_primary_invariant (cs : List Contractor) (c : Contractor)
    (hmem : c ∈ cs) (hprim : c.isPrimary = true)
    (hnodup : (cs.map Contractor.id).Nodup) (hid : c.id ≠ "") :
    (confirmDelete cs c.id).isSome = true ∧
    ((confirmDelete cs c.id).getD [] ≠ [] →
      ((confirmDelete cs c.id).getD []).countP (fun x => x.isPrimary) = 1) ∧
    ((confirmDelete cs c.id).getD [] = [] →
      ((confirmDelete cs c.id).getD []).countP (fun x => x.isPrimary) = 0) := by
  have hfind : cs.find? (fun x => x.id == c.id) = some c :=
    find?_id_of_nodup cs c hnodup hmem
  rcases cs with _ | ⟨x, rest⟩
  · cases hmem
  rcases rest with _ | ⟨y, t⟩
  · -- the singleton case: the whole set is deleted
    obtain rfl : c = x := List.mem_singleton.mp hmem
    have heq : confirmDelete [c] c.id = some [] := by
      rw [confirmDelete_eq_of_find [c] c.id c hid hfind,
        if_neg (by simp)]
      unfold deleteContractor
      simp
    rw [heq]
    refine ⟨rfl, ?_, ?_⟩
    · intro h
      exact absurd rfl h
    · intro _
      rfl
  · -- at least two contractors: remaining[0] is promoted
    have hlen : 1 < (x :: y :: t).length := by
      simp [List.length_cons]
    have hfilter_ne : (x :: y :: t).filter (fun a => !(a.id == c.id)) ≠ [] := by
      intro hnil
      rw [List.filter_eq_nil_iff] at hnil
      have hx : x.id = c.id := by
        have := hnil x (List.mem_cons_self x (y :: t))
        simpa using this
      have hy : y.id = c.id := by
        have := hnil y (List.mem_cons_of_mem x (List.mem_cons_self y t))
        simpa using this
      rw [List.map_cons, List.map_cons, List.nodup_cons] at hnodup
      exact hnodup.1 (by
        rw [hx, ← hy]
        exact List.mem_map_of_mem _ (List.mem_cons_self y t))
    obtain ⟨r0, rrest, hrem⟩ :
        ∃ r0 rrest, (x :: y :: t).filter (fun a => !(a.id == c.id)) = r0 :: rrest := by
      cases hr : (x :: y :: t).filter (fun a => !(a.id == c.id)) with
      | nil => exact absurd hr hfilter_ne
      | cons r0 rrest => exact ⟨r0, rrest, rfl⟩
    have heq : confirmDelete (x :: y :: t) c.id =
        some (deleteContractor (setContractorPrimary (x :: y :: t) r0.id) c.id) := by
      rw [confirmDelete_eq_of_find (x :: y :: t) c.id c hid hfind,
        if_pos (by simp [hprim, hlen]), hrem]
    have hL : deleteContractor (setContractorPrimary (x :: y :: t) r0.id) c.id =
        (r0 :: rrest).map (fun c0 => { c0 with isPrimary := c0.id == r0.id }) := by
      unfold deleteContractor setContractorPrimary
      rw [map_primary_filter_comm, hrem]
    have hndrem : (((x :: y :: t).filter (fun a => !(a.id == c.id))).map
        Contractor.id).Nodup :=
      hnodup.sublist ((List.filter_sublist _).map _)
    have hone : ((r0 :: rrest).map
        (fun c0 => { c0 with isPrimary := c0.id == r0.id })).countP
          (fun z => z.isPrimary) = 1 := by
      rw [List.countP_map]
      show (r0 :: rrest).countP (fun z => z.id == r0.id) = 1
      exact countP_id_eq_one (r0 :: rrest) r0 (by rw [← hrem]; exact hndrem) (by simp)
    rw [heq]
    refine ⟨rfl, ?_, ?_⟩
    · intro _
      show (deleteContractor (setContractorPrimary (x :: y :: t) r0.id) c.id).countP
        (fun z => z.isPrimary) = 1
      rw [hL]
      exact hone
    · intro hnil
      rw [hnil]
      rfl

/-- The primary contact in the witness pair. -/
def sampleContractorA : Contractor :=
  { id := "a", name := "Anne", phone := "111", email := none, isPrimary := true }

/-- The secondary contact in the witness pair. -/
def sampleContractorB : Contractor :=
  { id := "b", name := "Bo", phone := "222", email := none, isPrimary := false }

/-- Witness for C8: deleting the primary of a pair leaves exactly one
primary; deleting the only contractor leaves none. -/
theorem C8_primary_invariant_witness :
    ((confirmDelete [sampleContractorA, sampleContractorB] "a").getD []).countP
      (fun x => x.isPrimary) = 1 ∧
    ((confirmDelete [sampleContractorA] "a").getD []).countP
      (fun x => x.isPrimary) = 0 :=
  ⟨(C8_primary_invariant [sampleContractorA, sampleContractorB] sampleContractorA
      (by simp) rfl (by decide) (by decide)).2.1 (by decide),
   (C8_primary_invariant [sampleContractorA] sampleContractorA
      (by simp) rfl (by decide) (by decide)).2.2 (by decide)⟩
